import Mathlib

/- Verification development for the guagua personal-finance ledger core
   (src/app.py, src/seed.py): the multi-currency normalization function
   compute_net_cny and the dashboard/accounts aggregation views.

   Modelling conventions:
   - Python floats are modelled as exact rationals (ℚ).
   - Python round(x, 2) is modelled as round-half-to-even at 2 decimals.
   - Python dates are modelled as integers counting days since 1970-01-01
     (the proleptic Gregorian calendar); civilFromDays converts a day
     number to (year, month, day) and fmtMMDD / ymOf mirror the label
     formats strftime("%m-%d") and strftime("%Y-%m") / to_char(.., "YYYY-MM").
   - A possibly-missing value (Python None, or a falsy form field) is an
     Option; the Python idiom (x or d) on numbers is pyOr, which replaces
     both None and 0.0 by the default. -/

namespace Guagua

/-- Python truthiness default for numbers: (x or d) yields d when x is
None or zero, and x otherwise.  Embeds the idiom in compute_net_cny. -/
def pyOr (x : Option ℚ) (d : ℚ) : ℚ :=
  match x with
  | none => d
  | some v => if v = 0 then d else v

/-- Python truthiness default for strings: (s or d) yields d when s is
None or empty. -/
def pyOrStr (x : Option String) (d : String) : String :=
  match x with
  | none => d
  | some s => if s = "" then d else s

/-- Round-half-to-even to an integer, the rounding mode of Python round. -/
def roundHalfEven (q : ℚ) : ℤ :=
  let n := ⌊q⌋
  let r := q - n
  if r < 1/2 then n
  else if 1/2 < r then n + 1
  else if n % 2 = 0 then n else n + 1

/-- Python round(x, 2): round-half-to-even at two decimal places. -/
def round2 (q : ℚ) : ℚ :=
  (roundHalfEven (q * 100) : ℚ) / 100

theorem pyOr_some_zero_default (v : ℚ) : pyOr (some v) 0 = v := by
  rcases eq_or_ne v 0 with h | h <;> simp [pyOr, h]

theorem pyOr_some_of_ne (v d : ℚ) (h : v ≠ 0) : pyOr (some v) d = v := by
  simp [pyOr, h]

theorem round2_zero : round2 0 = 0 := by
  norm_num [round2, roundHalfEven]

theorem direction_expense_ne_income : ("支出" : String) ≠ "收入" := by decide

-- --------------------------------------------------------------------
-- Normalization function (src/app.py lines 91-97)
-- --------------------------------------------------------------------

/-- compute_net_cny from src/app.py: amount_cny = (amount or 0.0) *
(rate_to_cny or 1.0); fee_cny = (fee or 0.0) * (rate_to_cny or 1.0);
income gives amount_cny - fee_cny, anything else -amount_cny - fee_cny. -/
def compute_net_cny (direction : String) (amount fee rate_to_cny : Option ℚ) : ℚ :=
  let amount_cny := pyOr amount 0 * pyOr rate_to_cny 1
  let fee_cny := pyOr fee 0 * pyOr rate_to_cny 1
  if direction = "收入" then amount_cny - fee_cny
  else -amount_cny - fee_cny

-- --------------------------------------------------------------------
-- Seed scenario (src/seed.py lines 29-40): amount/fee are passed through
-- abs before the net value is computed.
-- --------------------------------------------------------------------

/-- The five sample entries of seed.py as (direction, amount, fee, rate). -/
def seedSamples : List (String × ℚ × ℚ × ℚ) :=
  [("收入", 1200, 10, 1),
   ("支出", 300, 0, 1),
   ("收入", 200, 2, 7),
   ("支出", 500, 0, 1),
   ("支出", 50, 1, 7.8)]

/-- The net values seed.py stores: compute_net_cny applied after taking
absolute values of amount and fee. -/
def seedNetValues : List ℚ :=
  seedSamples.map (fun s => compute_net_cny s.1 (some |s.2.1|) (some |s.2.2.1|) (some s.2.2.2))

-- --------------------------------------------------------------------
-- Claims about the normalization function
-- --------------------------------------------------------------------

/-- C1: for direction Income or Expense, amount ≥ 0, fee ≥ 0 and rate > 0,
compute_net_cny gives amount*rate - fee*rate on Income and
-(amount*rate) - fee*rate on Expense. -/
theorem C1_compute_net_formula (a f r : ℚ) (ha : 0 ≤ a) (hf : 0 ≤ f) (hr : 0 < r) :
    compute_net_cny "收入" (some a) (some f) (some r) = a * r - f * r ∧
    compute_net_cny "支出" (some a) (some f) (some r) = -(a * r) - f * r := by
  constructor <;>
    simp [compute_net_cny, pyOr_some_zero_default, pyOr_some_of_ne r 1 hr.ne']

theorem C1_witness :
    (0 : ℚ) ≤ 2 ∧ (0 : ℚ) ≤ 1 ∧ (0 : ℚ) < 3 ∧
    (compute_net_cny "收入" (some 2) (some 1) (some 3) = 2 * 3 - 1 * 3 ∧
     compute_net_cny "支出" (some 2) (some 1) (some 3) = -(2 * 3) - 1 * 3) :=
  ⟨by norm_num, by norm_num, by norm_num,
   C1_compute_net_formula 2 1 3 (by norm_num) (by norm_num) (by norm_num)⟩

/-- C4: the fee always reduces the net by fee*rate, for every direction:
compute_net_cny d a f r = compute_net_cny d a 0 r - f*r when a, f ≥ 0
and r > 0. -/
theorem C4_fee_always_cost (d : String) (a f r : ℚ) (ha : 0 ≤ a) (hf : 0 ≤ f) (hr : 0 < r) :
    compute_net_cny d (some a) (some f) (some r) =
      compute_net_cny d (some a) (some 0) (some r) - f * r := by
  have hz : pyOr (some 0) 0 = 0 := pyOr_some_zero_default 0
  by_cases hd : d = "收入" <;>
    simp [compute_net_cny, hd, pyOr_some_zero_default, pyOr_some_of_ne r 1 hr.ne', hz]

theorem C4_witness :
    (0 : ℚ) ≤ 5 ∧ (0 : ℚ) ≤ 2 ∧ (0 : ℚ) < 7 ∧
    compute_net_cny "支出" (some 5) (some 2) (some 7) =
      compute_net_cny "支出" (some 5) (some 0) (some 7) - 2 * 7 :=
  ⟨by norm_num, by norm_num, by norm_num,
   C4_fee_always_cost "支出" 5 2 7 (by norm_num) (by norm_num) (by norm_num)⟩

/-- C8: defensive defaults of the normalization function: a missing or
zero rate behaves as 1.0, a missing amount or fee behaves as 0.0, and an
explicitly negative rate is not caught by the falsy default, so
compute_net_cny(Income, a, 0, -r) = -(a*r) for r > 0. -/
theorem C8_defensive_defaults (d : String) (am fe : Option ℚ) (x y r : ℚ) (hr : 0 < r) :
    compute_net_cny d am fe none = compute_net_cny d am fe (some 1) ∧
    compute_net_cny d am fe (some 0) = compute_net_cny d am fe (some 1) ∧
    compute_net_cny d none (some y) (some x) = compute_net_cny d (some 0) (some y) (some x) ∧
    compute_net_cny d (some x) none (some y) = compute_net_cny d (some x) (some 0) (some y) ∧
    compute_net_cny "收入" (some x) (some 0) (some (-r)) = -(x * r) := by
  have hrne : (-r : ℚ) ≠ 0 := by simpa using hr.ne'
  refine ⟨?_, ?_, ?_, ?_, ?_⟩
  · simp [compute_net_cny, pyOr]
  · simp [compute_net_cny, pyOr]
  · simp [compute_net_cny, pyOr]
  · simp [compute_net_cny, pyOr]
  · simp [compute_net_cny, pyOr_some_zero_default, pyOr_some_of_ne (-r) 1 hrne]

theorem C8_witness :
    (0 : ℚ) < 4 ∧
    (compute_net_cny "支出" (some 3) (some 2) none = compute_net_cny "支出" (some 3) (some 2) (some 1) ∧
     compute_net_cny "支出" (some 3) (some 2) (some 0) = compute_net_cny "支出" (some 3) (some 2) (some 1) ∧
     compute_net_cny "支出" none (some 9) (some 8) = compute_net_cny "支出" (some 0) (some 9) (some 8) ∧
     compute_net_cny "支出" (some 8) none (some 9) = compute_net_cny "支出" (some 8) (some 0) (some 9) ∧
     compute_net_cny "收入" (some 8) (some 0) (some (-4)) = -(8 * 4)) :=
  ⟨by norm_num, C8_defensive_defaults "支出" (some 3) (some 2) 8 9 4 (by norm_num)⟩

/-- C9: the five seed.py entries yield net values 1190, -300, 1386, -500,
-397.8, with total 1378.2. -/
theorem C9_seed_scenario :
    seedNetValues = [1190, -300, 1386, -500, -397.8] ∧
    seedNetValues.sum = 1378.2 := by
  constructor <;>
    norm_num [seedNetValues, seedSamples, compute_net_cny, pyOr,
      direction_expense_ne_income, List.sum_cons]

/-- C10 counterexample: at rate 0 the falsy default replaces the rate by
1.0, so compute_net_cny("支出", 1, 0, 0) = -1, not -(1*0) - 0*0 = 0 as the
claim's formula demands for every rate. -/
theorem C10_counterexample :
    compute_net_cny "支出" (some 1) (some 0) (some 0) = -1 ∧
    (-(1 * 0) - 0 * 0 : ℚ) = 0 ∧ (-1 : ℚ) ≠ 0 := by
  refine ⟨?_, by norm_num, by norm_num⟩
  norm_num [compute_net_cny, pyOr, direction_expense_ne_income]

/-- C10 (amended): every direction other than Income takes the Expense
branch: for every d ≠ Income, every amount and fee, and every nonzero
rate, compute_net_cny d a f r = -(a*r) - f*r. -/
theorem C10_non_income_is_expense (d : String) (a f r : ℚ) (hd : d ≠ "收入") (hr : r ≠ 0) :
    compute_net_cny d (some a) (some f) (some r) = -(a * r) - f * r := by
  simp [compute_net_cny, hd, pyOr_some_zero_default, pyOr_some_of_ne r 1 hr]

theorem C10_witness :
    "refund" ≠ "收入" ∧ (5 : ℚ) ≠ 0 ∧
    compute_net_cny "refund" (some (-2)) (some 3) (some 5) = -((-2) * 5) - 3 * 5 :=
  ⟨by decide, by norm_num, C10_non_income_is_expense "refund" (-2) 3 5 (by decide) (by norm_num)⟩

-- --------------------------------------------------------------------
-- Calendar dates.  Entry dates are day numbers (days since 1970-01-01);
-- civilFromDays recovers the Gregorian (year, month, day) triple, and
-- fmtMMDD / ymOf produce the label formats used by the dashboard:
-- dt.strftime("%m-%d") and strftime("%Y-%m", date) / to_char(date,
-- "YYYY-MM").
-- --------------------------------------------------------------------

/-- One Gregorian calendar date. -/
structure CivilDate where
  year : Int
  month : Nat
  day : Nat
deriving DecidableEq

/-- Day number to Gregorian date (standard civil-from-days algorithm),
day 0 being 1970-01-01. -/
def civilFromDays (z0 : Int) : CivilDate :=
  let z := z0 + 719468
  let era := z.fdiv 146097
  let doe := (z - era * 146097).toNat
  let yoe := (doe - doe / 1460 + doe / 36524 - doe / 146096) / 365
  let y := (yoe : Int) + era * 400
  let doy := doe - (365 * yoe + yoe / 4 - yoe / 100)
  let mp := (5 * doy + 2) / 153
  let d := doy - (153 * mp + 2) / 5 + 1
  let m := if mp < 10 then mp + 3 else mp - 9
  { year := y + (if m ≤ 2 then 1 else 0), month := m, day := d }

/-- Zero-pad a number to two digits, as strftime does. -/
def pad2 (n : Nat) : String :=
  if n < 10 then "0" ++ toString n else toString n

/-- Zero-pad a year to four digits. -/
def pad4 (n : Int) : String :=
  let s := toString n
  if n < 10 ∧ 0 ≤ n then "000" ++ s
  else if n < 100 ∧ 0 ≤ n then "00" ++ s
  else if n < 1000 ∧ 0 ≤ n then "0" ++ s
  else s

/-- strftime("%m-%d") of a day number. -/
def fmtMMDD (z : Int) : String :=
  let c := civilFromDays z
  pad2 c.month ++ "-" ++ pad2 c.day

/-- The YYYY-MM month label of a day number. -/
def ymOf (z : Int) : String :=
  let c := civilFromDays z
  pad4 c.year ++ "-" ++ pad2 c.month

theorem civilFromDays_epoch : civilFromDays 0 = { year := 1970, month := 1, day := 1 } := by
  decide

theorem civilFromDays_leap_day : civilFromDays 11016 = { year := 2000, month := 2, day := 29 } := by
  decide

-- --------------------------------------------------------------------
-- The dashboard 30-day daily series (src/app.py lines 234-250).
-- daily_map is the per-day sum map from the grouped-by-date query; the
-- loop runs for i in range(30) over dt = start_30 + i with start_30 =
-- today - 29 days, keeping an unrounded running total and emitting
-- rounded values.  The loop is expressed as recursion on the number of
-- remaining iterations, dt being the current day.
-- --------------------------------------------------------------------

/-- The body of the 30-day loop: one recursive step per iteration,
producing (labels_30, values_30, cum_values). -/
def seriesLoop (m : Int → Option ℚ) : Nat → Int → ℚ → List String × List ℚ × List ℚ
  | 0, _, _ => ([], [], [])
  | fuel + 1, dt, running =>
    let v := (m dt).getD 0
    let rest := seriesLoop m fuel (dt + 1) (running + v)
    (fmtMMDD dt :: rest.1, round2 v :: rest.2.1, round2 (running + v) :: rest.2.2)

/-- labels_30 of the dashboard: 30 MM-DD labels starting at today - 29. -/
def labels_30 (m : Int → Option ℚ) (today : Int) : List String :=
  (seriesLoop m 30 (today - 29) 0).1

/-- values_30 of the dashboard: the rounded daily sums, gap-filled with 0. -/
def values_30 (m : Int → Option ℚ) (today : Int) : List ℚ :=
  (seriesLoop m 30 (today - 29) 0).2.1

/-- cum_values of the dashboard: the rounded running totals. -/
def cum_values (m : Int → Option ℚ) (today : Int) : List ℚ :=
  (seriesLoop m 30 (today - 29) 0).2.2

theorem seriesLoop_length (m : Int → Option ℚ) (fuel : Nat) (dt : Int) (running : ℚ) :
    (seriesLoop m fuel dt running).1.length = fuel ∧
    (seriesLoop m fuel dt running).2.1.length = fuel ∧
    (seriesLoop m fuel dt running).2.2.length = fuel := by
  induction fuel generalizing dt running with
  | zero => simp [seriesLoop]
  | succ n ih =>
    have h := ih (dt + 1) (running + ((m dt).getD 0))
    simp [seriesLoop, h.1, h.2.1, h.2.2]

theorem seriesLoop_succ_eq (m : Int → Option ℚ) (fuel : Nat) (dt : Int) (running : ℚ) :
    seriesLoop m (fuel + 1) dt running =
      (fmtMMDD dt :: (seriesLoop m fuel (dt + 1) (running + (m dt).getD 0)).1,
       round2 ((m dt).getD 0) :: (seriesLoop m fuel (dt + 1) (running + (m dt).getD 0)).2.1,
       round2 (running + (m dt).getD 0) ::
         (seriesLoop m fuel (dt + 1) (running + (m dt).getD 0)).2.2) := rfl

theorem seriesLoop_label (m : Int → Option ℚ) (fuel k : Nat) (dt : Int) (running : ℚ)
    (hk : k < fuel) :
    (seriesLoop m fuel dt running).1.getD k "" = fmtMMDD (dt + k) := by
  induction fuel generalizing dt running k with
  | zero => omega
  | succ n ih =>
    cases k with
    | zero =>
      rw [seriesLoop_succ_eq]
      norm_num
    | succ k =>
      have h := ih k (dt + 1) (running + ((m dt).getD 0)) (Nat.lt_of_succ_lt_succ hk)
      rw [seriesLoop_succ_eq, List.getD_cons_succ, h]
      congr 1
      push_cast
      ring

theorem seriesLoop_value (m : Int → Option ℚ) (fuel k : Nat) (dt : Int) (running : ℚ)
    (hk : k < fuel) :
    (seriesLoop m fuel dt running).2.1.getD k 0 = round2 ((m (dt + k)).getD 0) := by
  induction fuel generalizing dt running k with
  | zero => omega
  | succ n ih =>
    cases k with
    | zero =>
      rw [seriesLoop_succ_eq]
      norm_num
    | succ k =>
      have h := ih k (dt + 1) (running + ((m dt).getD 0)) (Nat.lt_of_succ_lt_succ hk)
      rw [seriesLoop_succ_eq, List.getD_cons_succ, h]
      congr 2
      push_cast
      ring

theorem seriesLoop_cum (m : Int → Option ℚ) (fuel k : Nat) (dt : Int) (running : ℚ)
    (hk : k < fuel) :
    (seriesLoop m fuel dt running).2.2.getD k 0 =
      round2 (running + Finset.sum (Finset.range (k + 1)) (fun j => (m (dt + j)).getD 0)) := by
  induction fuel generalizing dt running k with
  | zero => omega
  | succ n ih =>
    cases k with
    | zero =>
      rw [seriesLoop_succ_eq]
      simp [Finset.sum_range_one]
    | succ k =>
      have h := ih k (dt + 1) (running + ((m dt).getD 0)) (Nat.lt_of_succ_lt_succ hk)
      have hshift : Finset.sum (Finset.range (k + 1)) (fun j => (m (dt + 1 + j)).getD 0) =
          Finset.sum (Finset.range (k + 1)) (fun j => (m (dt + ((j + 1 : Nat) : Int))).getD 0) := by
        refine Finset.sum_congr rfl (fun j _ => ?_)
        have harg : dt + 1 + (j : Int) = dt + ((j + 1 : Nat) : Int) := by push_cast; ring
        rw [harg]
      rw [seriesLoop_succ_eq, List.getD_cons_succ, h]
      congr 1
      rw [Finset.sum_range_succ' (fun j => (m (dt + (j : Int))).getD 0) (k + 1), hshift]
      simp only [Nat.cast_zero, add_zero]
      ring

/-- C3: the 30-day series has exactly 30 points; the point at index i
(for i < 30) is the day today - 29 + i, so the series is oldest-first and
ends today; a day absent from the per-day map yields an explicit 0 value
at its index; labels are the MM-DD formatting of the corresponding day;
and the emitted cumulative value at i is the rounding of the unrounded
prefix sum of the daily values. -/
theorem C3_thirty_day_series (m : Int → Option ℚ) (today : Int) (i : Nat) (hi : i < 30) :
    (labels_30 m today).length = 30 ∧
    (values_30 m today).length = 30 ∧
    (cum_values m today).length = 30 ∧
    (labels_30 m today).getD i "" = fmtMMDD (today - 29 + i) ∧
    (labels_30 m today).getD 29 "" = fmtMMDD today ∧
    (values_30 m today).getD i 0 = round2 ((m (today - 29 + i)).getD 0) ∧
    (m (today - 29 + i) = none → (values_30 m today).getD i 0 = 0) ∧
    (cum_values m today).getD i 0 =
      round2 (Finset.sum (Finset.range (i + 1)) (fun j => (m (today - 29 + j)).getD 0)) := by
  simp only [labels_30, values_30, cum_values]
  have hl := seriesLoop_length m 30 (today - 29) 0
  refine ⟨hl.1, hl.2.1, hl.2.2,
    seriesLoop_label m 30 i (today - 29) 0 hi, ?_, seriesLoop_value m 30 i (today - 29) 0 hi,
    ?_, ?_⟩
  · have h29 := seriesLoop_label m 30 29 (today - 29) 0 (by norm_num)
    have : today - 29 + ((29 : Nat) : Int) = today := by norm_num
    rwa [this] at h29
  · intro hnone
    rw [seriesLoop_value m 30 i (today - 29) 0 hi, hnone]
    simpa using round2_zero
  · have h := seriesLoop_cum m 30 i (today - 29) 0 hi
    rwa [zero_add] at h

/-- Concrete per-day map used by the series witness: activity only on day
20738 (2026-10-12). -/
def demoDailyMap : Int → Option ℚ :=
  fun d => if d = 20738 then some (5/2) else none

theorem C3_witness :
    29 < 30 ∧
    ((labels_30 demoDailyMap 20738).length = 30 ∧
     (values_30 demoDailyMap 20738).length = 30 ∧
     (cum_values demoDailyMap 20738).length = 30 ∧
     (labels_30 demoDailyMap 20738).getD 29 "" = fmtMMDD (20738 - 29 + (29 : Nat)) ∧
     (labels_30 demoDailyMap 20738).getD 29 "" = fmtMMDD 20738 ∧
     (values_30 demoDailyMap 20738).getD 29 0 = round2 ((demoDailyMap (20738 - 29 + (29 : Nat))).getD 0) ∧
     (demoDailyMap (20738 - 29 + (29 : Nat)) = none → (values_30 demoDailyMap 20738).getD 29 0 = 0) ∧
     (cum_values demoDailyMap 20738).getD 29 0 =
       round2 (Finset.sum (Finset.range (29 + 1)) (fun j => (demoDailyMap (20738 - 29 + j)).getD 0))) :=
  ⟨by decide, C3_thirty_day_series demoDailyMap 20738 29 (by decide)⟩


-- --------------------------------------------------------------------
-- The Entry row (src/app.py lines 68-83) and the dashboard POST path
-- that creates one (src/app.py lines 170-211).
-- --------------------------------------------------------------------

/-- One row of the entries table (the fields the reporting layer uses). -/
structure Entry where
  date : Int
  direction : String
  amount : ℚ
  fee : ℚ
  currency : String
  rate_to_cny : ℚ
  account_id : Option Int
  category : Option String
  tags : String
  note : String
  net_cny : ℚ
deriving DecidableEq

theorem income_ne_empty : ("收入" : String) ≠ "" := by decide

theorem expense_ne_empty : ("支出" : String) ≠ "" := by decide

/-- The dashboard POST handler building an Entry from the submitted form:
direction defaults to 支出 and is coerced to 支出 unless it is 收入 or 支出;
missing numeric fields parse to 0 (rate to 1); net_cny is computed from
the raw amount and fee, while the stored amount and fee are their
absolute values. -/
def dashboardEntry (dt : Int) (direction0 : Option String)
    (amount0 fee0 rate0 : Option ℚ) (currency0 category0 tags0 note0 : Option String)
    (account_id : Option Int) : Entry :=
  let direction1 := pyOrStr direction0 "支出"
  let direction := if direction1 = "收入" ∨ direction1 = "支出" then direction1 else "支出"
  let amount := amount0.getD 0
  let fee := fee0.getD 0
  let currency := (pyOrStr currency0 "CNY").toUpper
  let rate_to_cny := rate0.getD 1
  let category := pyOrStr category0 "其他"
  let tags := pyOrStr tags0 ""
  let note := pyOrStr note0 ""
  let net_cny := compute_net_cny direction (some amount) (some fee) (some rate_to_cny)
  { date := dt, direction := direction, amount := |amount|, fee := |fee|,
    currency := currency, rate_to_cny := rate_to_cny, account_id := account_id,
    category := some category, tags := tags, note := note, net_cny := net_cny }

/-- The entry the dashboard stores for an Income form with amount -100,
fee 0, rate 1. -/
def demoBadEntry : Entry :=
  dashboardEntry 0 (some "收入") (some (-100)) (some 0) (some 1) none none none none none

/-- C2: the claimed invariant fails on the code.  For the Income form
with user amount -100 the dashboard stores amount 100 (absolute value)
but net_cny -100, computed from the raw negative amount before abs; the
normalization of the stored fields gives 100, so the stored net_cny
differs from the normalization of the stored direction, amount, fee and
rate. -/
theorem C2_stored_net_mismatch :
    demoBadEntry.direction = "收入" ∧
    demoBadEntry.amount = 100 ∧
    demoBadEntry.fee = 0 ∧
    demoBadEntry.rate_to_cny = 1 ∧
    demoBadEntry.net_cny = -100 ∧
    compute_net_cny demoBadEntry.direction (some demoBadEntry.amount)
      (some demoBadEntry.fee) (some demoBadEntry.rate_to_cny) = 100 ∧
    demoBadEntry.net_cny ≠ compute_net_cny demoBadEntry.direction (some demoBadEntry.amount)
      (some demoBadEntry.fee) (some demoBadEntry.rate_to_cny) := by
  refine ⟨?_, ?_, ?_, ?_, ?_, ?_, ?_⟩ <;>
    norm_num [demoBadEntry, dashboardEntry, pyOrStr, compute_net_cny, pyOr, income_ne_empty]

-- --------------------------------------------------------------------
-- Category breakdown (src/app.py lines 269-274): per category, the sum
-- of case(net_cny > 0, net_cny, else 0); a falsy category label is
-- reported as 未分类 (Uncategorized).
-- --------------------------------------------------------------------

/-- The SQL case expression case((net_cny > 0, net_cny), else_=0.0). -/
def posPart (q : ℚ) : ℚ := if 0 < q then q else 0

/-- The distinct categories of the entries (the GROUP BY keys). -/
def catKeys (es : List Entry) : List (Option String) :=
  (es.map (fun e => e.category)).dedup

/-- cat_rows: one (category, positive-only sum) row per distinct
category. -/
def cat_rows (es : List Entry) : List (Option String × ℚ) :=
  (catKeys es).map (fun c =>
    (c, ((es.filter (fun e => decide (e.category = c))).map
          (fun e => posPart e.net_cny)).sum))

/-- The label of a category row: r[0] or 未分类. -/
def catLabel (c : Option String) : String :=
  match c with
  | none => "未分类"
  | some s => if s = "" then "未分类" else s

/-- cat_labels of the dashboard. -/
def cat_labels (es : List Entry) : List String :=
  (cat_rows es).map (fun r => catLabel r.1)

/-- cat_values of the dashboard (rounded at presentation). -/
def cat_values (es : List Entry) : List ℚ :=
  (cat_rows es).map (fun r => round2 r.2)

/-- C5: every category row sums only the positive net contributions of
its category (an entry with non-positive net_cny contributes 0), and an
absent (null) category is labelled 未分类 ("Uncategorized"). -/
theorem C5_category_positive_only (es : List Entry) (p : Option String × ℚ)
    (hp : p ∈ cat_rows es) :
    p.2 = ((es.filter (fun e => decide (e.category = p.1))).map
            (fun e => if 0 < e.net_cny then e.net_cny else 0)).sum ∧
    (∀ q : ℚ, q < 0 → posPart q = 0) ∧
    catLabel none = "未分类" ∧
    cat_labels es = (cat_rows es).map (fun r => catLabel r.1) := by
  refine ⟨?_, ?_, rfl, rfl⟩
  · rcases List.mem_map.mp hp with ⟨c, hc, rfl⟩
    rfl
  · intro q hq
    simp [posPart, not_lt.mpr hq.le]

/-- Three entries in one category X with net values 100, -40, 25, the
example of the spec. -/
def demoCatEntries : List Entry :=
  [{ date := 0, direction := "收入", amount := 100, fee := 0, currency := "CNY",
     rate_to_cny := 1, account_id := none, category := some "X", tags := "", note := "",
     net_cny := 100 },
   { date := 0, direction := "支出", amount := 40, fee := 0, currency := "CNY",
     rate_to_cny := 1, account_id := none, category := some "X", tags := "", note := "",
     net_cny := -40 },
   { date := 0, direction := "收入", amount := 25, fee := 0, currency := "CNY",
     rate_to_cny := 1, account_id := none, category := some "X", tags := "", note := "",
     net_cny := 25 }]

theorem cat_rows_demo : cat_rows demoCatEntries = [(some "X", 125)] := by
  norm_num [cat_rows, catKeys, demoCatEntries, posPart]

theorem C5_witness :
    ((some "X", (125 : ℚ)) ∈ cat_rows demoCatEntries) ∧
    ((some "X", (125 : ℚ)).2 =
      ((demoCatEntries.filter (fun e => decide (e.category = (some "X", (125 : ℚ)).1))).map
        (fun e => if 0 < e.net_cny then e.net_cny else 0)).sum ∧
     (∀ q : ℚ, q < 0 → posPart q = 0) ∧
     catLabel none = "未分类" ∧
     cat_labels demoCatEntries = (cat_rows demoCatEntries).map (fun r => catLabel r.1)) ∧
    (125 : ℚ) ≠ 85 :=
  ⟨by rw [cat_rows_demo]; exact List.mem_singleton_self _,
   C5_category_positive_only demoCatEntries (some "X", (125 : ℚ))
     (by rw [cat_rows_demo]; exact List.mem_singleton_self _),
   by norm_num⟩


-- --------------------------------------------------------------------
-- Monthly series (src/app.py lines 252-267): entries with date >=
-- six_months_ago, grouped by the YYYY-MM label, ordered ascending by
-- that label; values are rounded at presentation.  The window start is a
-- parameter here (the dashboard computes it from today).
-- --------------------------------------------------------------------

/-- The entries inside the monthly window (date >= since, inclusive). -/
def monthFilt (es : List Entry) (since : Int) : List Entry :=
  es.filter (fun e => decide (since ≤ e.date))

/-- The distinct YYYY-MM labels occurring in the window (GROUP BY ym). -/
def monthKeys (es : List Entry) (since : Int) : List String :=
  ((monthFilt es since).map (fun e => ymOf e.date)).dedup

/-- month_rows: per occurring month, ordered ascending by label, the sum
of net_cny of the window entries of that month. -/
def month_rows (es : List Entry) (since : Int) : List (String × ℚ) :=
  (List.insertionSort (fun a b : String => a ≤ b) (monthKeys es since)).map
    (fun k => (k, (((monthFilt es since).filter (fun e => decide (ymOf e.date = k))).map
      (fun e => e.net_cny)).sum))

/-- month_labels of the dashboard. -/
def month_labels (es : List Entry) (since : Int) : List String :=
  (month_rows es since).map (fun p => p.1)

/-- month_values of the dashboard (rounded at presentation). -/
def month_values (es : List Entry) (since : Int) : List ℚ :=
  (month_rows es since).map (fun p => round2 p.2)

theorem map_fst_pair {α β : Type} (g : α → β) (l : List α) :
    (l.map (fun k => (k, g k))).map (fun p => p.1) = l := by
  induction l with
  | nil => rfl
  | cons x xs ih => simp only [List.map_cons, ih]

theorem month_labels_eq_sorted_keys (es : List Entry) (since : Int) :
    month_labels es since =
      List.insertionSort (fun a b : String => a ≤ b) (monthKeys es since) :=
  map_fst_pair _ _

theorem month_labels_mem (es : List Entry) (since : Int) (l : String) :
    l ∈ month_labels es since ↔ ∃ e ∈ es, since ≤ e.date ∧ ymOf e.date = l := by
  rw [month_labels_eq_sorted_keys,
    (List.perm_insertionSort (fun a b : String => a ≤ b) (monthKeys es since)).mem_iff]
  simp only [monthKeys, monthFilt, List.mem_dedup, List.mem_map, List.mem_filter,
    decide_eq_true_eq]
  constructor
  · rintro ⟨e, ⟨he, hd⟩, hy⟩
    exact ⟨e, he, hd, hy⟩
  · rintro ⟨e, he, hd, hy⟩
    exact ⟨e, ⟨he, hd⟩, hy⟩

/-- C6: the monthly series has one (label, sum) pair per month with at
least one entry at date >= the window start (inclusive); its label is the
YYYY-MM label of such an entry, the labels are ascending and distinct, a
month with no entry in the window is absent, each pair's value is the sum
of net_cny over the window entries of that month, and the emitted values
are the rounded sums. -/
theorem C6_monthly_series (es : List Entry) (since : Int) (p : String × ℚ)
    (hp : p ∈ month_rows es since) :
    (∀ l : String, l ∈ month_labels es since ↔
      ∃ e ∈ es, since ≤ e.date ∧ ymOf e.date = l) ∧
    (month_labels es since).Sorted (fun a b : String => a ≤ b) ∧
    (month_labels es since).Nodup ∧
    (∃ e ∈ es, since ≤ e.date ∧ ymOf e.date = p.1) ∧
    p.2 = (((monthFilt es since).filter (fun e => decide (ymOf e.date = p.1))).map
      (fun e => e.net_cny)).sum ∧
    month_values es since = (month_rows es since).map (fun q => round2 q.2) := by
  refine ⟨month_labels_mem es since, ?_, ?_, ?_, ?_, rfl⟩
  · rw [month_labels_eq_sorted_keys]
    exact List.sorted_insertionSort _ _
  · rw [month_labels_eq_sorted_keys]
    exact (List.perm_insertionSort _ _).nodup_iff.mpr (List.nodup_dedup _)
  · refine (month_labels_mem es since p.1).mp ?_
    rcases List.mem_map.mp hp with ⟨k, hk, rfl⟩
    rw [month_labels_eq_sorted_keys]
    exact hk
  · rcases List.mem_map.mp hp with ⟨k, hk, rfl⟩
    rfl

/-- One entry on 1970-01-01 with net 10, used by the monthly witness. -/
def demoMonthEntries : List Entry :=
  [{ date := 0, direction := "收入", amount := 10, fee := 0, currency := "CNY",
     rate_to_cny := 1, account_id := none, category := some "X", tags := "", note := "",
     net_cny := 10 }]

theorem ymOf_epoch : ymOf 0 = "1970-01" := by decide

theorem month_rows_demo : month_rows demoMonthEntries (-31) = [("1970-01", 10)] := by
  norm_num [month_rows, monthKeys, monthFilt, demoMonthEntries, ymOf_epoch,
    List.insertionSort, List.orderedInsert]

theorem C6_witness :
    (("1970-01", (10 : ℚ)) ∈ month_rows demoMonthEntries (-31)) ∧
    ((∀ l : String, l ∈ month_labels demoMonthEntries (-31) ↔
        ∃ e ∈ demoMonthEntries, -31 ≤ e.date ∧ ymOf e.date = l) ∧
     (month_labels demoMonthEntries (-31)).Sorted (fun a b : String => a ≤ b) ∧
     (month_labels demoMonthEntries (-31)).Nodup ∧
     (∃ e ∈ demoMonthEntries, -31 ≤ e.date ∧ ymOf e.date = ("1970-01", (10 : ℚ)).1) ∧
     ("1970-01", (10 : ℚ)).2 =
       (((monthFilt demoMonthEntries (-31)).filter
           (fun e => decide (ymOf e.date = ("1970-01", (10 : ℚ)).1))).map
         (fun e => e.net_cny)).sum ∧
     month_values demoMonthEntries (-31) =
       (month_rows demoMonthEntries (-31)).map (fun q => round2 q.2)) :=
  ⟨by rw [month_rows_demo]; exact List.mem_singleton_self _,
   C6_monthly_series demoMonthEntries (-31) ("1970-01", (10 : ℚ))
     (by rw [month_rows_demo]; exact List.mem_singleton_self _)⟩

-- --------------------------------------------------------------------
-- Per-account balances (src/app.py lines 354-370): every account of the
-- user appears (outer join); pl is the sum of net_cny of the entries
-- referencing the account; current balance is initial + pl, rounded at
-- presentation, as are the reported initial balance and pl.
-- --------------------------------------------------------------------

/-- One row of the accounts table. -/
structure Account where
  id : Int
  name : String
  initial_balance : ℚ
deriving DecidableEq

/-- One reported account summary (the acct_info dict). -/
structure AcctInfo where
  id : Int
  name : String
  initial_balance : ℚ
  pl : ℚ
  current_balance : ℚ
deriving DecidableEq

instance : DecidableRel (fun a b : Account => a.name ≤ b.name) :=
  fun a b => inferInstanceAs (Decidable (a.name ≤ b.name))

/-- The net sum of the entries referencing account a (0 when none). -/
def acctPl (es : List Entry) (a : Account) : ℚ :=
  ((es.filter (fun e => decide (e.account_id = some a.id))).map (fun e => e.net_cny)).sum

/-- acct_info of the accounts view: every account of the user, ordered by
name, with rounded initial balance, pl and current balance. -/
def acct_info (accts : List Account) (es : List Entry) : List AcctInfo :=
  (List.insertionSort (fun a b : Account => a.name ≤ b.name) accts).map
    (fun a => { id := a.id, name := a.name,
                initial_balance := round2 a.initial_balance,
                pl := round2 (acctPl es a),
                current_balance := round2 (a.initial_balance + acctPl es a) })

/-- C7 counterexample: an account with initial balance 1/400 (0.0025)
and no entries is reported with current balance 0, which differs from its
initial balance, so the reported balance does not equal initialBalance
exactly. -/
theorem C7_counterexample :
    (acct_info [{ id := 1, name := "A", initial_balance := 1/400 }] []).map
      (fun r => r.current_balance) = [0] ∧
    ((1 : ℚ)/400 ≠ 0) := by
  constructor
  · have hz : acctPl [] { id := 1, name := "A", initial_balance := (1/400 : ℚ) } = 0 := by
      simp [acctPl]
    simp only [acct_info, List.insertionSort, List.orderedInsert, List.map_cons, List.map_nil,
      hz, add_zero]
    norm_num [round2, roundHalfEven]
  · norm_num

/-- C7 (amended): every account of the user appears in the report; its
current balance is round2(initial + sum of referencing entries' net), and
with zero matching entries it is round2(initialBalance) — equal to the
initial balance exactly whenever that is representable at 2 decimals. -/
theorem C7_account_balances (accts : List Account) (es : List Entry) (a : Account)
    (ha : a ∈ accts) :
    ∃ r ∈ acct_info accts es,
      r.id = a.id ∧ r.name = a.name ∧
      r.initial_balance = round2 a.initial_balance ∧
      r.pl = round2 (acctPl es a) ∧
      r.current_balance = round2 (a.initial_balance + acctPl es a) ∧
      (es.filter (fun e => decide (e.account_id = some a.id)) = [] →
        r.current_balance = round2 a.initial_balance) := by
  refine ⟨_, List.mem_map_of_mem _
    ((List.perm_insertionSort (fun a b : Account => a.name ≤ b.name) accts).mem_iff.mpr ha),
    rfl, rfl, rfl, rfl, rfl, ?_⟩
  intro h
  have hz : acctPl es a = 0 := by simp [acctPl, h]
  simp [hz]

/-- Account used by the accounts witness. -/
def demoAccount : Account := { id := 1, name := "A", initial_balance := 5 }

theorem C7_witness :
    demoAccount ∈ [demoAccount] ∧
    (∃ r ∈ acct_info [demoAccount] [],
      r.id = demoAccount.id ∧ r.name = demoAccount.name ∧
      r.initial_balance = round2 demoAccount.initial_balance ∧
      r.pl = round2 (acctPl [] demoAccount) ∧
      r.current_balance = round2 (demoAccount.initial_balance + acctPl [] demoAccount) ∧
      (List.filter (fun e => decide (e.account_id = some demoAccount.id)) ([] : List Entry) = [] →
        r.current_balance = round2 demoAccount.initial_balance)) :=
  ⟨List.mem_singleton_self _,
   C7_account_balances [demoAccount] [] demoAccount (List.mem_singleton_self _)⟩


end Guagua
